import Mathlib

/-!
Verification of the amortization engine of `src/utils/mortgageCalculations.ts`
(Ho-Luc/home-calc).

The engine is embedded over `ℚ` (exact arithmetic): every JS numeric
expression is translated literally, and `Math.round(x * 100) / 100` becomes
`⌊x * 100 + 1/2⌋ / 100`, which coincides with JS `Math.round` (round half
towards positive infinity) on every rational.

The source file declares some functions twice (the refinance / extra-payment
block starting at line 431 redeclares `calculateMortgageWithExtras`,
`calculateRefinanceComparison` and friends).  At runtime the later
declaration of a JS `function` wins, so the embedding follows the later
definitions (lines 431-717) for those names; `calculateMonthlyPayment`,
`generatePaymentSchedule` and `calculateMortgageDetails` are declared once.

The source anchors every `paymentDate` to `new Date()` — the wall clock at
invocation time.  That hidden input is made explicit here as a `startDate : ℕ`
parameter (an abstract month index; `paymentDate` of payment `i` is
`startDate + i`, mirroring `setMonth(getMonth() + i)` followed by ISO
formatting, which is injective on months).
-/

namespace HomeCalc

/-- One row of the amortization table (`PaymentScheduleItem` in the source).
`paymentDate` is the abstract month index `startDate + paymentNumber`. -/
structure PaymentScheduleItem where
  paymentNumber : ℕ
  paymentDate : ℕ
  principalPayment : ℚ
  interestPayment : ℚ
  totalPayment : ℚ
  remainingBalance : ℚ
  cumulativeInterest : ℚ
deriving DecidableEq, Repr

/-- `Math.round(x * 100) / 100`: rounding to whole cents.  JS `Math.round y`
equals `⌊y + 1/2⌋` for every real `y`, so this is exact. -/
def round2 (x : ℚ) : ℚ := ((⌊x * 100 + 1/2⌋ : ℤ) : ℚ) / 100

/-- `calculateMonthlyPayment` (source lines 78-95). -/
def calculateMonthlyPayment (loanAmount annualInterestRate : ℚ)
    (loanTermYears : ℕ) : ℚ :=
  if annualInterestRate = 0 then
    loanAmount / ((loanTermYears : ℚ) * 12)
  else
    let monthlyInterestRate := annualInterestRate / 100 / 12
    let numberOfPayments := loanTermYears * 12
    loanAmount * (monthlyInterestRate * (1 + monthlyInterestRate) ^ numberOfPayments) /
      ((1 + monthlyInterestRate) ^ numberOfPayments - 1)

/-- One iteration of `generatePaymentSchedule`'s loop acting on the
`remainingBalance` variable (source lines 143-151): pay interest
`b * monthlyInterestRate`, subtract the principal part of the fixed payment,
then snap a balance below one cent to `0`. -/
def clampStep (monthlyInterestRate monthlyPayment b : ℚ) : ℚ :=
  let interestPayment := b * monthlyInterestRate
  let principalPayment := monthlyPayment - interestPayment
  let b1 := b - principalPayment
  if b1 < 1/100 then 0 else b1

/-- The loop of `generatePaymentSchedule` (source lines 142-165).  The first
argument of the recursion is the number of iterations still to run (the
source's `for` loop runs exactly `numberOfPayments` times), `i` is the
1-based payment number, `b` the running balance, `cum` the running unrounded
cumulative interest. -/
def genGo (monthlyInterestRate monthlyPayment : ℚ) (startDate : ℕ) :
    ℕ → ℕ → ℚ → ℚ → List PaymentScheduleItem
  | 0, _, _, _ => []
  | count + 1, i, b, cum =>
    { paymentNumber := i
      paymentDate := startDate + i
      principalPayment := round2 (monthlyPayment - b * monthlyInterestRate)
      interestPayment := round2 (b * monthlyInterestRate)
      totalPayment := round2 monthlyPayment
      remainingBalance := round2 (clampStep monthlyInterestRate monthlyPayment b)
      cumulativeInterest := round2 (cum + b * monthlyInterestRate) } ::
    genGo monthlyInterestRate monthlyPayment startDate count (i + 1)
      (clampStep monthlyInterestRate monthlyPayment b)
      (cum + b * monthlyInterestRate)

/-- `generatePaymentSchedule` (source lines 127-168). -/
def generatePaymentSchedule (loanAmount annualInterestRate : ℚ)
    (loanTermYears startDate : ℕ) : List PaymentScheduleItem :=
  genGo (annualInterestRate / 100 / 12)
    (calculateMonthlyPayment loanAmount annualInterestRate loanTermYears)
    startDate (loanTermYears * 12) 1 loanAmount 0

/-- `.reduce((sum, p) => sum + p.interestPayment, 0)` (source lines 112, 565). -/
def sumInterest : List PaymentScheduleItem → ℚ
  | [] => 0
  | e :: l => e.interestPayment + sumInterest l

/-- `.reduce((sum, p) => sum + p.totalPayment, 0)` (source line 566). -/
def sumTotalPayment : List PaymentScheduleItem → ℚ
  | [] => 0
  | e :: l => e.totalPayment + sumTotalPayment l

/-- `MortgageInputs` (source lines 1-9); the optional escrow fields default
to `0` exactly as the destructuring defaults on source line 101. -/
structure MortgageInputs where
  loanAmount : ℚ
  interestRate : ℚ
  loanTermYears : ℕ
  propertyTax : ℚ := 0
  homeInsurance : ℚ := 0
  pmi : ℚ := 0
  hoaFees : ℚ := 0
deriving DecidableEq, Repr

/-- `MortgageResults` (source lines 11-17). -/
structure MortgageResults where
  monthlyPayment : ℚ
  monthlyPrincipalAndInterest : ℚ
  totalInterest : ℚ
  totalPayments : ℚ
  paymentSchedule : List PaymentScheduleItem
deriving DecidableEq, Repr

/-- `calculateMortgageDetails` (source lines 100-122). -/
def calculateMortgageDetails (inputs : MortgageInputs) (startDate : ℕ) :
    MortgageResults :=
  let monthlyPrincipalAndInterest :=
    calculateMonthlyPayment inputs.loanAmount inputs.interestRate inputs.loanTermYears
  let monthlyPayment := monthlyPrincipalAndInterest + inputs.propertyTax / 12 +
    inputs.homeInsurance / 12 + inputs.pmi / 12 + inputs.hoaFees / 12
  let paymentSchedule :=
    generatePaymentSchedule inputs.loanAmount inputs.interestRate
      inputs.loanTermYears startDate
  { monthlyPayment := monthlyPayment
    monthlyPrincipalAndInterest := monthlyPrincipalAndInterest
    totalInterest := sumInterest paymentSchedule
    totalPayments := monthlyPayment * (inputs.loanTermYears : ℚ) * 12
    paymentSchedule := paymentSchedule }

/-- The annual-lump-sum guard of `generateScheduleWithExtras` (source line
510): `enableAnnualPayment && annualExtraPayment > 0 && paymentNumber % 12
=== 1 && paymentNumber > 1`. -/
def annualApplies (enableAnnualPayment : Bool) (annualExtraPayment : ℚ)
    (paymentNumber : ℕ) : Prop :=
  enableAnnualPayment = true ∧ 0 < annualExtraPayment ∧
    paymentNumber % 12 = 1 ∧ 1 < paymentNumber

instance (e : Bool) (a : ℚ) (pn : ℕ) : Decidable (annualApplies e a pn) :=
  inferInstanceAs (Decidable (_ ∧ _ ∧ _ ∧ _))

/-- The monthly extra actually added (source lines 504-507: added only when
`extraMonthlyPayment > 0`). -/
def extraOf (extraMonthlyPayment : ℚ) : ℚ :=
  if 0 < extraMonthlyPayment then extraMonthlyPayment else 0

/-- The annual lump actually added at payment `pn` (source lines 510-513). -/
def lumpOf (enableAnnualPayment : Bool) (annualExtraPayment : ℚ)
    (paymentNumber : ℕ) : ℚ :=
  if annualApplies enableAnnualPayment annualExtraPayment paymentNumber then
    annualExtraPayment else 0

/-- The principal actually paid in one iteration of
`generateScheduleWithExtras` (source lines 499-519): base principal plus the
extras, capped at the remaining balance. -/
def extrasPrincipal (mr pay em an : ℚ) (en : Bool) (pn : ℕ) (b : ℚ) : ℚ :=
  let pp := pay - b * mr + extraOf em + lumpOf en an pn
  if b < pp then b else pp

/-- The `totalPayment` recorded in the same iteration (source lines 501-519):
the scheduled payment plus extras, recomputed as `interest + principal` when
the cap was applied. -/
def extrasTotal (mr pay em an : ℚ) (en : Bool) (pn : ℕ) (b : ℚ) : ℚ :=
  let pp := pay - b * mr + extraOf em + lumpOf en an pn
  if b < pp then b * mr + b else pay + extraOf em + lumpOf en an pn

/-- The loop of `generateScheduleWithExtras` (source lines 498-538): `while
(remainingBalance > 0.01 && paymentNumber <= numberOfPayments * 2)`.  The
fuel argument is the number of iterations the payment-number bound still
allows (`numberOfPayments * 2` initially, with `pn` starting at 1), so
`fuel = 0` is exactly `paymentNumber > numberOfPayments * 2`.  Note that,
unlike `genGo`, there is no sub-cent snap of the balance to `0`. -/
def extrasGo (mr pay em an : ℚ) (en : Bool) (startDate : ℕ) :
    ℕ → ℕ → ℚ → ℚ → List PaymentScheduleItem
  | 0, _, _, _ => []
  | fuel + 1, pn, b, cum =>
    if 1/100 < b then
      { paymentNumber := pn
        paymentDate := startDate + pn
        principalPayment := round2 (extrasPrincipal mr pay em an en pn b)
        interestPayment := round2 (b * mr)
        totalPayment := round2 (extrasTotal mr pay em an en pn b)
        remainingBalance := round2 (b - extrasPrincipal mr pay em an en pn b)
        cumulativeInterest := round2 (cum + b * mr) } ::
      extrasGo mr pay em an en startDate fuel (pn + 1)
        (b - extrasPrincipal mr pay em an en pn b) (cum + b * mr)
    else []

/-- `generateScheduleWithExtras` (source lines 479-541). -/
def generateScheduleWithExtras (loanAmount annualInterestRate : ℚ)
    (loanTermYears : ℕ) (extraMonthlyPayment annualExtraPayment : ℚ)
    (enableAnnualPayment : Bool) (startDate : ℕ) : List PaymentScheduleItem :=
  extrasGo (annualInterestRate / 100 / 12)
    (calculateMonthlyPayment loanAmount annualInterestRate loanTermYears)
    extraMonthlyPayment annualExtraPayment enableAnnualPayment startDate
    (loanTermYears * 12 * 2) 1 loanAmount 0

/-- `MortgageWithExtrasResults` (source lines 466-474).  `timeSavedMonths`
is a difference of schedule lengths and may be negative, hence `ℤ`;
`payoffDate` is an abstract month index like `paymentDate`. -/
structure MortgageWithExtrasResults where
  monthlyPayment : ℚ
  totalInterest : ℚ
  totalPayments : ℚ
  paymentSchedule : List PaymentScheduleItem
  timeSavedMonths : ℤ
  interestSaved : ℚ
  payoffDate : ℕ
deriving DecidableEq, Repr

/-- `calculateMortgageWithExtras` — the later, live declaration (source
lines 546-586). -/
def calculateMortgageWithExtras (baseInputs : MortgageInputs)
    (extraMonthlyPayment annualExtraPayment : ℚ) (enableAnnualPayment : Bool)
    (startDate : ℕ) : MortgageWithExtrasResults :=
  let baseMortgage := calculateMortgageDetails baseInputs startDate
  let scheduleWithExtras :=
    generateScheduleWithExtras baseInputs.loanAmount baseInputs.interestRate
      baseInputs.loanTermYears extraMonthlyPayment annualExtraPayment
      enableAnnualPayment startDate
  let totalInterest := sumInterest scheduleWithExtras
  let baseMonthlyPayment :=
    calculateMonthlyPayment baseInputs.loanAmount baseInputs.interestRate
      baseInputs.loanTermYears
  { monthlyPayment := baseMonthlyPayment + extraMonthlyPayment
    totalInterest := totalInterest
    totalPayments := sumTotalPayment scheduleWithExtras
    paymentSchedule := scheduleWithExtras
    timeSavedMonths :=
      (baseMortgage.paymentSchedule.length : ℤ) - scheduleWithExtras.length
    interestSaved := baseMortgage.totalInterest - totalInterest
    payoffDate := startDate + scheduleWithExtras.length }

/-- `RefinanceInputs` (source lines 433-453). -/
structure RefinanceInputs where
  currentLoanAmount : ℚ
  currentInterestRate : ℚ
  currentRemainingYears : ℕ
  currentMonthsRemaining : ℕ
  newLoanAmount : ℚ
  newInterestRate : ℚ
  newLoanTermYears : ℕ
  closingCosts : ℚ
  cashOut : ℚ
  extraMonthlyPayment : ℚ
  annualExtraPayment : ℚ
  enableAnnualPayment : Bool
deriving DecidableEq, Repr

/-- `RefinanceResults` (source lines 455-464).  `payoffTimeSaved` is a
difference of schedule lengths and may be negative, hence `ℤ`. -/
structure RefinanceResults where
  currentMortgage : MortgageResults
  newMortgage : MortgageResults
  newMortgageWithExtras : MortgageResults
  monthlySavings : ℚ
  totalInterestSavings : ℚ
  totalSavings : ℚ
  breakEvenMonths : ℚ
  payoffTimeSaved : ℤ
deriving DecidableEq, Repr

/-- `calculateRefinanceComparison` — the later, live declaration (source
lines 591-650).  `Math.ceil` on a rational is `⌈·⌉`. -/
def calculateRefinanceComparison (inputs : RefinanceInputs) (startDate : ℕ) :
    RefinanceResults :=
  let currentMortgage := calculateMortgageDetails
    { loanAmount := inputs.currentLoanAmount
      interestRate := inputs.currentInterestRate
      loanTermYears := inputs.currentRemainingYears } startDate
  let newMortgageInputs : MortgageInputs :=
    { loanAmount := inputs.newLoanAmount + inputs.cashOut
      interestRate := inputs.newInterestRate
      loanTermYears := inputs.newLoanTermYears }
  let newMortgage := calculateMortgageDetails newMortgageInputs startDate
  let newMortgageWithExtras := calculateMortgageWithExtras newMortgageInputs
    inputs.extraMonthlyPayment inputs.annualExtraPayment
    inputs.enableAnnualPayment startDate
  let monthlySavings := currentMortgage.monthlyPayment - newMortgageWithExtras.monthlyPayment
  let totalInterestSavings := currentMortgage.totalInterest - newMortgageWithExtras.totalInterest
  { currentMortgage := currentMortgage
    newMortgage := newMortgage
    newMortgageWithExtras :=
      { monthlyPayment := newMortgageWithExtras.monthlyPayment
        monthlyPrincipalAndInterest := newMortgageWithExtras.monthlyPayment
        totalInterest := newMortgageWithExtras.totalInterest
        totalPayments := newMortgageWithExtras.totalPayments
        paymentSchedule := newMortgageWithExtras.paymentSchedule }
    monthlySavings := monthlySavings
    totalInterestSavings := totalInterestSavings
    totalSavings := totalInterestSavings - inputs.closingCosts
    breakEvenMonths :=
      if 0 < monthlySavings then ((⌈inputs.closingCosts / monthlySavings⌉ : ℤ) : ℚ)
      else 999
    payoffTimeSaved :=
      (currentMortgage.paymentSchedule.length : ℤ) -
        newMortgageWithExtras.paymentSchedule.length }

/-- The balance variable of `generatePaymentSchedule`'s loop after a given
number of iterations (iterating `clampStep`). -/
def cbal (mr pay : ℚ) : ℕ → ℚ → ℚ
  | 0, b => b
  | k + 1, b => cbal mr pay k (clampStep mr pay b)

/-- The same trajectory without the sub-cent snap: the exact amortization
recurrence `b ↦ b - (pay - b * mr)`. -/
def rawBal (mr pay : ℚ) : ℕ → ℚ → ℚ
  | 0, b => b
  | k + 1, b => rawBal mr pay k (b - (pay - b * mr))

/-- Exact (unrounded) total interest over a given number of iterations of
`generatePaymentSchedule`'s loop. -/
def cISum (mr pay : ℚ) : ℕ → ℚ → ℚ
  | 0, _ => 0
  | k + 1, b => b * mr + cISum mr pay k (clampStep mr pay b)

/-- The balance variable of `generateScheduleWithExtras`'s loop after a given
number of iterations starting at payment number `pn` (the loop body's update,
without the exit test). -/
def extrasBal (mr pay em an : ℚ) (en : Bool) : ℕ → ℕ → ℚ → ℚ
  | 0, _, b => b
  | k + 1, pn, b =>
    extrasBal mr pay em an en k (pn + 1) (b - extrasPrincipal mr pay em an en pn b)

/-- Every field of a schedule entry except the clock-dependent
`paymentDate`. -/
def stripDate (e : PaymentScheduleItem) : ℕ × ℚ × ℚ × ℚ × ℚ × ℚ :=
  (e.paymentNumber, e.principalPayment, e.interestPayment, e.totalPayment,
    e.remainingBalance, e.cumulativeInterest)

/-! ### Basic facts about cent rounding -/

theorem round2_mono {a b : ℚ} (h : a ≤ b) : round2 a ≤ round2 b := by
  unfold round2
  have hf : ⌊a * 100 + 1/2⌋ ≤ ⌊b * 100 + 1/2⌋ := Int.floor_le_floor (by linarith)
  have : ((⌊a * 100 + 1/2⌋ : ℤ) : ℚ) ≤ ((⌊b * 100 + 1/2⌋ : ℤ) : ℚ) := by
    exact_mod_cast hf
  linarith

theorem round2_nonneg {a : ℚ} (h : 0 ≤ a) : 0 ≤ round2 a := by
  unfold round2
  have hf : (0 : ℤ) ≤ ⌊a * 100 + 1/2⌋ := Int.floor_nonneg.mpr (by linarith)
  have : (0 : ℚ) ≤ ((⌊a * 100 + 1/2⌋ : ℤ) : ℚ) := by exact_mod_cast hf
  linarith

theorem round2_zero : round2 0 = 0 := by norm_num [round2]

theorem abs_round2_sub_le (x : ℚ) : |round2 x - x| ≤ 1/200 := by
  have h1 : ((⌊x * 100 + 1/2⌋ : ℤ) : ℚ) ≤ x * 100 + 1/2 := Int.floor_le _
  have h2 : x * 100 + 1/2 - 1 < ((⌊x * 100 + 1/2⌋ : ℤ) : ℚ) := Int.sub_one_lt_floor _
  rw [abs_le]
  unfold round2
  constructor <;> linarith

/-! ### Facts about the payment formula -/

theorem calculateMonthlyPayment_pos {loanAmount annualInterestRate : ℚ}
    {loanTermYears : ℕ} (hL : 0 < loanAmount) (hr : 0 ≤ annualInterestRate)
    (ht : 1 ≤ loanTermYears) :
    0 < calculateMonthlyPayment loanAmount annualInterestRate loanTermYears := by
  unfold calculateMonthlyPayment
  have htq : (1 : ℚ) ≤ (loanTermYears : ℚ) := by exact_mod_cast ht
  split
  · exact div_pos hL (by linarith)
  · rename_i hne
    have hmr : 0 < annualInterestRate / 100 / 12 := by
      have : 0 < annualInterestRate := lt_of_le_of_ne hr (Ne.symm hne)
      positivity
    have hX : 1 < (1 + annualInterestRate / 100 / 12) ^ (loanTermYears * 12) :=
      one_lt_pow₀ (by linarith) (by positivity)
    exact div_pos (by positivity) (by linarith)

theorem calculateMonthlyPayment_ge {loanAmount annualInterestRate : ℚ}
    {loanTermYears : ℕ} (hL : 0 < loanAmount) (hr : 0 ≤ annualInterestRate)
    (ht : 1 ≤ loanTermYears) :
    loanAmount * (annualInterestRate / 100 / 12) ≤
      calculateMonthlyPayment loanAmount annualInterestRate loanTermYears := by
  unfold calculateMonthlyPayment
  have htq : (1 : ℚ) ≤ (loanTermYears : ℚ) := by exact_mod_cast ht
  split
  · rename_i h0
    rw [h0]
    have : 0 < loanAmount / ((loanTermYears : ℚ) * 12) := div_pos hL (by linarith)
    simp only [zero_div, mul_zero]
    linarith
  · rename_i hne
    have hmr : 0 < annualInterestRate / 100 / 12 := by
      have : 0 < annualInterestRate := lt_of_le_of_ne hr (Ne.symm hne)
      positivity
    set mr := annualInterestRate / 100 / 12 with hmrdef
    set X := (1 + mr) ^ (loanTermYears * 12) with hXdef
    have hX : 1 < X := one_lt_pow₀ (by linarith) (by positivity)
    rw [le_div_iff₀ (by linarith : (0 : ℚ) < X - 1)]
    have hLmr : 0 < loanAmount * mr := mul_pos hL hmr
    nlinarith

/-! ### Facts about the loop of `generatePaymentSchedule` -/

theorem genGo_length (mr pay : ℚ) (d : ℕ) :
    ∀ c i (b cum : ℚ), (genGo mr pay d c i b cum).length = c := by
  intro c
  induction c with
  | zero => intro i b cum; simp [genGo]
  | succ k ih => intro i b cum; simp [genGo, ih]

theorem clampStep_nonneg (mr pay b : ℚ) : 0 ≤ clampStep mr pay b := by
  simp only [clampStep]
  split
  · exact le_refl 0
  · rename_i h; push_neg at h; linarith

theorem clampStep_le {mr pay b : ℚ} (hb : 0 ≤ b) (hbp : b * mr ≤ pay) :
    clampStep mr pay b ≤ b := by
  simp only [clampStep]
  split
  · exact hb
  · linarith

theorem genGo_balance_facts (mr pay : ℚ) (d : ℕ) (hmr : 0 ≤ mr) :
    ∀ c i (b cum : ℚ), 0 ≤ b → b * mr ≤ pay →
      (∀ e ∈ genGo mr pay d c i b cum,
        0 ≤ e.remainingBalance ∧ e.remainingBalance ≤ round2 b) ∧
      List.Chain' (fun x y => y.remainingBalance ≤ x.remainingBalance)
        (genGo mr pay d c i b cum) := by
  intro c
  induction c with
  | zero => intro i b cum _ _; simp [genGo]
  | succ k ih =>
    intro i b cum hb hbp
    have hb' : 0 ≤ clampStep mr pay b := clampStep_nonneg mr pay b
    have hb'b : clampStep mr pay b ≤ b := clampStep_le hb hbp
    have hb'p : clampStep mr pay b * mr ≤ pay :=
      le_trans (mul_le_mul_of_nonneg_right hb'b hmr) hbp
    obtain ⟨ihmem, ihchain⟩ := ih (i + 1) (clampStep mr pay b) (cum + b * mr) hb' hb'p
    constructor
    · intro e he
      simp only [genGo, List.mem_cons] at he
      rcases he with rfl | he
      · exact ⟨round2_nonneg hb', round2_mono hb'b⟩
      · obtain ⟨h1, h2⟩ := ihmem e he
        exact ⟨h1, le_trans h2 (round2_mono hb'b)⟩
    · show List.Chain' _ (_ :: _)
      rw [List.chain'_cons']
      refine ⟨?_, ihchain⟩
      intro y hy
      have hmem := List.mem_of_mem_head? hy
      exact le_trans (ihmem y hmem).2 (le_refl _)

theorem getLast?_cons_of_ne_nil {α : Type} (a : α) {l : List α} (h : l ≠ []) :
    (a :: l).getLast? = l.getLast? := by
  cases l with
  | nil => exact absurd rfl h
  | cons x t => exact List.getLast?_cons_cons

theorem genGo_getLast (mr pay : ℚ) (d : ℕ) :
    ∀ c, 1 ≤ c → ∀ i (b cum : ℚ), ∃ e,
      (genGo mr pay d c i b cum).getLast? = some e ∧
      e.remainingBalance = round2 (cbal mr pay c b) ∧
      e.cumulativeInterest = round2 (cum + cISum mr pay c b) := by
  intro c
  induction c with
  | zero => intro h; exact absurd h (by norm_num)
  | succ k ih =>
    intro _ i b cum
    by_cases hk : 1 ≤ k
    · obtain ⟨e, he, hrb, hci⟩ := ih hk (i + 1) (clampStep mr pay b) (cum + b * mr)
      refine ⟨e, ?_, ?_, ?_⟩
      · have hne : genGo mr pay d k (i + 1) (clampStep mr pay b) (cum + b * mr) ≠ [] := by
          intro hcon
          have := genGo_length mr pay d k (i + 1) (clampStep mr pay b) (cum + b * mr)
          rw [hcon] at this
          simp at this
          omega
        show (genGo mr pay d (k + 1) i b cum).getLast? = some e
        rw [show genGo mr pay d (k + 1) i b cum = _ :: _ from rfl,
          getLast?_cons_of_ne_nil _ hne]
        exact he
      · rw [hrb]; rfl
      · rw [hci]
        show round2 (cum + b * mr + cISum mr pay k (clampStep mr pay b)) = _
        have : cum + b * mr + cISum mr pay k (clampStep mr pay b) =
            cum + cISum mr pay (k + 1) b := by
          show _ = cum + (b * mr + cISum mr pay k (clampStep mr pay b))
          ring
        rw [this]
    · have hk0 : k = 0 := by omega
      subst hk0
      refine ⟨_, rfl, ?_, ?_⟩
      · rfl
      · show round2 (cum + b * mr) = round2 (cum + cISum mr pay 1 b)
        have : cum + b * mr = cum + cISum mr pay 1 b := by
          show _ = cum + (b * mr + cISum mr pay 0 (clampStep mr pay b))
          show _ = cum + (b * mr + 0)
          ring
        rw [this]

/-! ### Payoff: the clamped trajectory reaches exactly zero -/

theorem rawBal_closed_form {mr : ℚ} (pay : ℚ) (hmr : mr ≠ 0) :
    ∀ k (b : ℚ), rawBal mr pay k b =
      b * (1 + mr) ^ k - pay * ((1 + mr) ^ k - 1) / mr := by
  intro k
  induction k with
  | zero => intro b; simp [rawBal]
  | succ n ih =>
    intro b
    show rawBal mr pay n (b - (pay - b * mr)) = _
    rw [ih]
    field_simp
    ring

theorem rawBal_payoff {loanAmount annualInterestRate : ℚ} {loanTermYears : ℕ}
    (hr : 0 ≤ annualInterestRate) (ht : 1 ≤ loanTermYears) :
    rawBal (annualInterestRate / 100 / 12)
      (calculateMonthlyPayment loanAmount annualInterestRate loanTermYears)
      (loanTermYears * 12) loanAmount = 0 := by
  by_cases h0 : annualInterestRate = 0
  · subst h0
    have haux : ∀ k (b : ℚ), rawBal 0 (calculateMonthlyPayment loanAmount 0 loanTermYears) k b =
        b - k * (calculateMonthlyPayment loanAmount 0 loanTermYears) := by
      intro k
      induction k with
      | zero => intro b; simp [rawBal]
      | succ n ih =>
        intro b
        show rawBal _ _ n (b - (_ - b * 0)) = _
        rw [ih]
        push_cast
        ring
    rw [show (0 : ℚ) / 100 / 12 = 0 by norm_num, haux]
    have hpay : calculateMonthlyPayment loanAmount 0 loanTermYears =
        loanAmount / ((loanTermYears : ℚ) * 12) := by
      simp [calculateMonthlyPayment]
    rw [hpay]
    have htq : (1 : ℚ) ≤ (loanTermYears : ℚ) := by exact_mod_cast ht
    have hden : ((loanTermYears : ℚ) * 12) ≠ 0 := by positivity
    push_cast
    field_simp
  · have hmr : (annualInterestRate / 100 / 12) ≠ 0 := by
      intro hcon
      apply h0
      field_simp at hcon
      exact hcon
    rw [rawBal_closed_form _ hmr]
    have hrpos : 0 < annualInterestRate := lt_of_le_of_ne hr (Ne.symm h0)
    set mr := annualInterestRate / 100 / 12 with hmrdef
    have hmrpos : 0 < mr := by rw [hmrdef]; positivity
    set X := (1 + mr) ^ (loanTermYears * 12) with hXdef
    have hX : 1 < X := one_lt_pow₀ (by linarith) (by positivity)
    have hXne : X - 1 ≠ 0 := ne_of_gt (by linarith)
    have hpay : calculateMonthlyPayment loanAmount annualInterestRate loanTermYears =
        loanAmount * (mr * X) / (X - 1) := by
      rw [calculateMonthlyPayment, if_neg h0]
    rw [hpay]
    field_simp
    ring

theorem cbal_zero {mr pay : ℚ} (hpay : 0 < pay) :
    ∀ n, cbal mr pay n 0 = 0 := by
  intro n
  induction n with
  | zero => rfl
  | succ k ih =>
    show cbal mr pay k (clampStep mr pay 0) = 0
    have : clampStep mr pay 0 = 0 := by
      simp only [clampStep]
      rw [if_pos]
      linarith
    rw [this, ih]

theorem cbal_eq_zero_of_rawBal {mr pay : ℚ} (hpay : 0 < pay) :
    ∀ n (b : ℚ), rawBal mr pay n b = 0 → cbal mr pay n b = 0 := by
  have key : ∀ n (b : ℚ), cbal mr pay n b = 0 ∨ cbal mr pay n b = rawBal mr pay n b := by
    intro n
    induction n with
    | zero => intro b; right; rfl
    | succ k ih =>
      intro b
      show cbal mr pay k (clampStep mr pay b) = 0 ∨
        cbal mr pay k (clampStep mr pay b) = rawBal mr pay k (b - (pay - b * mr))
      by_cases hcl : b - (pay - b * mr) < 1/100
      · have hstep : clampStep mr pay b = 0 := by simp only [clampStep]; rw [if_pos hcl]
        rw [hstep, cbal_zero hpay]
        left; rfl
      · have hstep : clampStep mr pay b = b - (pay - b * mr) := by
          simp only [clampStep]; rw [if_neg hcl]
        rw [hstep]
        exact ih (b - (pay - b * mr))
  intro n b hraw
  rcases key n b with h | h
  · exact h
  · rw [h, hraw]

/-! ### The interest sum versus the cumulative-interest field -/

theorem sumInterest_genGo_close (mr pay : ℚ) (d : ℕ) :
    ∀ c i (b cum : ℚ),
      |sumInterest (genGo mr pay d c i b cum) - cISum mr pay c b| ≤ (c : ℚ) / 200 := by
  intro c
  induction c with
  | zero => intro i b cum; simp [genGo, sumInterest, cISum]
  | succ k ih =>
    intro i b cum
    have hstep : sumInterest (genGo mr pay d (k + 1) i b cum) =
        round2 (b * mr) + sumInterest (genGo mr pay d k (i + 1)
          (clampStep mr pay b) (cum + b * mr)) := rfl
    have hc : cISum mr pay (k + 1) b = b * mr + cISum mr pay k (clampStep mr pay b) := rfl
    rw [hstep, hc]
    have h1 := abs_round2_sub_le (b * mr)
    have h2 := ih (i + 1) (clampStep mr pay b) (cum + b * mr)
    have htri : |round2 (b * mr) + sumInterest (genGo mr pay d k (i + 1)
        (clampStep mr pay b) (cum + b * mr)) - (b * mr + cISum mr pay k (clampStep mr pay b))| ≤
        |round2 (b * mr) - b * mr| + |sumInterest (genGo mr pay d k (i + 1)
          (clampStep mr pay b) (cum + b * mr)) - cISum mr pay k (clampStep mr pay b)| := by
      have heq : round2 (b * mr) + sumInterest (genGo mr pay d k (i + 1)
          (clampStep mr pay b) (cum + b * mr)) - (b * mr + cISum mr pay k (clampStep mr pay b)) =
          (round2 (b * mr) - b * mr) + (sumInterest (genGo mr pay d k (i + 1)
            (clampStep mr pay b) (cum + b * mr)) - cISum mr pay k (clampStep mr pay b)) := by
        ring
      rw [heq]
      exact abs_add _ _
    have hcast : ((k + 1 : ℕ) : ℚ) = (k : ℚ) + 1 := by push_cast; ring
    rw [hcast]
    linarith

theorem sumInterest_genGo_nonneg (mr pay : ℚ) (d : ℕ) (hmr : 0 ≤ mr) :
    ∀ c i (b cum : ℚ), 0 ≤ b → 0 ≤ sumInterest (genGo mr pay d c i b cum) := by
  intro c
  induction c with
  | zero => intro i b cum _; simp [genGo, sumInterest]
  | succ k ih =>
    intro i b cum hb
    show 0 ≤ round2 (b * mr) + sumInterest (genGo mr pay d k (i + 1)
      (clampStep mr pay b) (cum + b * mr))
    have h1 : 0 ≤ round2 (b * mr) := round2_nonneg (mul_nonneg hb hmr)
    have h2 := ih (i + 1) (clampStep mr pay b) (cum + b * mr) (clampStep_nonneg mr pay b)
    linarith

/-! ### Facts about the loop of `generateScheduleWithExtras` -/

theorem extraOf_nonneg (em : ℚ) : 0 ≤ extraOf em := by
  simp only [extraOf]
  split
  · rename_i h; linarith
  · exact le_refl 0

theorem lumpOf_nonneg (en : Bool) (an : ℚ) (pn : ℕ) : 0 ≤ lumpOf en an pn := by
  simp only [lumpOf]
  split
  · rename_i h; exact le_of_lt h.2.1
  · exact le_refl 0

theorem extrasPrincipal_le_self (mr pay em an : ℚ) (en : Bool) (pn : ℕ) (b : ℚ) :
    extrasPrincipal mr pay em an en pn b ≤ b := by
  simp only [extrasPrincipal]
  split
  · exact le_refl b
  · rename_i h; push_neg at h; exact h

theorem extrasPrincipal_nonneg {mr pay em an : ℚ} {en : Bool} {pn : ℕ} {b : ℚ}
    (hb : 0 ≤ b) (hbp : b * mr ≤ pay) : 0 ≤ extrasPrincipal mr pay em an en pn b := by
  have h1 := extraOf_nonneg em
  have h2 := lumpOf_nonneg en an pn
  simp only [extrasPrincipal]
  split
  · exact hb
  · linarith

theorem extrasStep_nonneg (mr pay em an : ℚ) (en : Bool) (pn : ℕ) (b : ℚ) :
    0 ≤ b - extrasPrincipal mr pay em an en pn b :=
  sub_nonneg.mpr (extrasPrincipal_le_self mr pay em an en pn b)

theorem extrasGo_balance_nonneg (mr pay em an : ℚ) (en : Bool) (d : ℕ) :
    ∀ f pn (b cum : ℚ), ∀ e ∈ extrasGo mr pay em an en d f pn b cum,
      0 ≤ e.remainingBalance := by
  intro f
  induction f with
  | zero => intro pn b cum e he; simp [extrasGo] at he
  | succ k ih =>
    intro pn b cum e he
    simp only [extrasGo] at he
    split at he
    · rcases List.mem_cons.mp he with rfl | he'
      · exact round2_nonneg (extrasStep_nonneg mr pay em an en pn b)
      · exact ih (pn + 1) _ _ e he'
    · simp at he

theorem extrasGo_balance_facts (mr pay em an : ℚ) (en : Bool) (d : ℕ) (hmr : 0 ≤ mr) :
    ∀ f pn (b cum : ℚ), 0 ≤ b → b * mr ≤ pay →
      (∀ e ∈ extrasGo mr pay em an en d f pn b cum,
        e.remainingBalance ≤ round2 b) ∧
      List.Chain' (fun x y => y.remainingBalance ≤ x.remainingBalance)
        (extrasGo mr pay em an en d f pn b cum) := by
  intro f
  induction f with
  | zero => intro pn b cum _ _; simp [extrasGo]
  | succ k ih =>
    intro pn b cum hb hbp
    simp only [extrasGo]
    split
    · set b' := b - extrasPrincipal mr pay em an en pn b with hbdef
      have hb'0 : 0 ≤ b' := extrasStep_nonneg mr pay em an en pn b
      have hb'b : b' ≤ b := by
        have := @extrasPrincipal_nonneg mr pay em an en pn b hb hbp
        rw [hbdef]; linarith
      have hb'p : b' * mr ≤ pay := le_trans (mul_le_mul_of_nonneg_right hb'b hmr) hbp
      obtain ⟨ihmem, ihchain⟩ := ih (pn + 1) b' (cum + b * mr) hb'0 hb'p
      constructor
      · intro e he
        rcases List.mem_cons.mp he with rfl | he'
        · exact round2_mono hb'b
        · exact le_trans (ihmem e he') (round2_mono hb'b)
      · rw [List.chain'_cons']
        refine ⟨?_, ihchain⟩
        intro y hy
        exact ihmem y (List.mem_of_mem_head? hy)
    · simp

/-! ### The zero-rate specialization of `generatePaymentSchedule` -/

theorem genGo_zero_rate (pay : ℚ) (d : ℕ) :
    ∀ c i (b cum : ℚ), ∀ e ∈ genGo 0 pay d c i b cum,
      e.interestPayment = 0 ∧ e.principalPayment = round2 pay := by
  intro c
  induction c with
  | zero => intro i b cum e he; simp [genGo] at he
  | succ k ih =>
    intro i b cum e he
    rcases List.mem_cons.mp he with rfl | he'
    · constructor
      · show round2 (b * 0) = 0
        rw [mul_zero, round2_zero]
      · show round2 (pay - b * 0) = round2 pay
        rw [mul_zero, sub_zero]
    · exact ih (i + 1) _ _ e he'

/-! ### Independence from the clock anchor -/

theorem genGo_map_stripDate (mr pay : ℚ) (d1 d2 : ℕ) :
    ∀ c i (b cum : ℚ),
      (genGo mr pay d1 c i b cum).map stripDate =
        (genGo mr pay d2 c i b cum).map stripDate := by
  intro c
  induction c with
  | zero => intro i b cum; simp [genGo]
  | succ k ih =>
    intro i b cum
    simp only [genGo, List.map_cons]
    rw [ih]
    rfl

theorem extrasGo_map_stripDate (mr pay em an : ℚ) (en : Bool) (d1 d2 : ℕ) :
    ∀ f pn (b cum : ℚ),
      (extrasGo mr pay em an en d1 f pn b cum).map stripDate =
        (extrasGo mr pay em an en d2 f pn b cum).map stripDate := by
  intro f
  induction f with
  | zero => intro pn b cum; simp [extrasGo]
  | succ k ih =>
    intro pn b cum
    simp only [extrasGo]
    split
    · simp only [List.map_cons]
      rw [ih]
      rfl
    · rfl

/-! ### The sub-cent snap, as a property of the clamped trajectory -/

theorem cbal_succ_clamp (mr pay : ℚ) :
    ∀ k (b : ℚ), cbal mr pay (k + 1) b = clampStep mr pay (cbal mr pay k b) := by
  intro k
  induction k with
  | zero => intro b; rfl
  | succ n ih =>
    intro b
    show cbal mr pay (n + 1) (clampStep mr pay b) = _
    rw [ih (clampStep mr pay b)]
    rfl

theorem clampStep_dichotomy (mr pay b : ℚ) :
    clampStep mr pay b = 0 ∨ 1/100 ≤ clampStep mr pay b := by
  simp only [clampStep]
  split
  · left; rfl
  · rename_i h; push_neg at h; right; exact h

/-! ### Dominance: extra payments never lengthen the schedule nor add interest -/

theorem extrasGo_eq_nil_of_le (mr pay em an : ℚ) (en : Bool) (d : ℕ) {b : ℚ}
    (h : b ≤ 1/100) : ∀ fe pn (cum : ℚ), extrasGo mr pay em an en d fe pn b cum = [] := by
  intro fe pn cum
  cases fe with
  | zero => rfl
  | succ m =>
    simp only [extrasGo]
    rw [if_neg (by linarith)]

theorem extras_dominance_aux (mr pay em an : ℚ) (en : Bool) (d : ℕ) (hmr : 0 ≤ mr) :
    ∀ f0 fe pn (b0 be cum0 cume : ℚ),
      0 ≤ b0 → 0 ≤ be → (be ≤ b0 ∨ be ≤ 1/100) → cbal mr pay f0 b0 = 0 →
      sumInterest (extrasGo mr pay em an en d fe pn be cume) ≤
        sumInterest (genGo mr pay d f0 pn b0 cum0) ∧
      (extrasGo mr pay em an en d fe pn be cume).length ≤ f0 := by
  intro f0
  induction f0 with
  | zero =>
    intro fe pn b0 be cum0 cume hb0 hbe hD hcb
    have hb00 : b0 = 0 := hcb
    have hsmall : be ≤ 1/100 := by
      rcases hD with h | h
      · rw [hb00] at h; linarith
      · exact h
    rw [extrasGo_eq_nil_of_le mr pay em an en d hsmall fe pn cume]
    exact ⟨le_refl 0, le_refl 0⟩
  | succ k ih =>
    intro fe pn b0 be cum0 cume hb0 hbe hD hcb
    have hcb' : cbal mr pay k (clampStep mr pay b0) = 0 := hcb
    have hb0' : 0 ≤ clampStep mr pay b0 := clampStep_nonneg mr pay b0
    by_cases hsmall : be ≤ 1/100
    · rw [extrasGo_eq_nil_of_le mr pay em an en d hsmall fe pn cume]
      constructor
      · exact sumInterest_genGo_nonneg mr pay d hmr (k + 1) pn b0 cum0 hb0
      · simp
    · push_neg at hsmall
      have hbeb : be ≤ b0 := by
        rcases hD with h | h
        · exact h
        · linarith
      cases fe with
      | zero =>
        constructor
        · exact sumInterest_genGo_nonneg mr pay d hmr (k + 1) pn b0 cum0 hb0
        · simp [extrasGo]
      | succ m =>
        have hL : extrasGo mr pay em an en d (m + 1) pn be cume =
            { paymentNumber := pn
              paymentDate := d + pn
              principalPayment := round2 (extrasPrincipal mr pay em an en pn be)
              interestPayment := round2 (be * mr)
              totalPayment := round2 (extrasTotal mr pay em an en pn be)
              remainingBalance := round2 (be - extrasPrincipal mr pay em an en pn be)
              cumulativeInterest := round2 (cume + be * mr) } ::
            extrasGo mr pay em an en d m (pn + 1)
              (be - extrasPrincipal mr pay em an en pn be) (cume + be * mr) := by
          simp only [extrasGo]
          rw [if_pos hsmall]
        have hbe'0 : 0 ≤ be - extrasPrincipal mr pay em an en pn be :=
          extrasStep_nonneg mr pay em an en pn be
        have hkey : be - extrasPrincipal mr pay em an en pn be ≤
            b0 - (pay - b0 * mr) ∨
            be - extrasPrincipal mr pay em an en pn be ≤ 1/100 := by
          by_cases hov : be < pay - be * mr + extraOf em + lumpOf en an pn
          · right
            have : extrasPrincipal mr pay em an en pn be = be := by
              simp only [extrasPrincipal]
              rw [if_pos hov]
            rw [this]
            norm_num
          · left
            have hppe : extrasPrincipal mr pay em an en pn be =
                pay - be * mr + extraOf em + lumpOf en an pn := by
              simp only [extrasPrincipal]
              rw [if_neg hov]
            rw [hppe]
            have h1 : be * mr ≤ b0 * mr := mul_le_mul_of_nonneg_right hbeb hmr
            have h2 := extraOf_nonneg em
            have h3 := lumpOf_nonneg en an pn
            linarith
        have hD' : be - extrasPrincipal mr pay em an en pn be ≤ clampStep mr pay b0 ∨
            be - extrasPrincipal mr pay em an en pn be ≤ 1/100 := by
          rcases hkey with h | h
          · by_cases hcl : b0 - (pay - b0 * mr) < 1/100
            · right; linarith
            · left
              have : clampStep mr pay b0 = b0 - (pay - b0 * mr) := by
                simp only [clampStep]
                rw [if_neg hcl]
              rw [this]
              exact h
          · right; exact h
        obtain ⟨ihsum, ihlen⟩ := ih m (pn + 1) (clampStep mr pay b0)
          (be - extrasPrincipal mr pay em an en pn be) (cum0 + b0 * mr)
          (cume + be * mr) hb0' hbe'0 hD' hcb'
        constructor
        · rw [hL]
          show round2 (be * mr) + _ ≤ round2 (b0 * mr) + _
          have hhead : round2 (be * mr) ≤ round2 (b0 * mr) :=
            round2_mono (mul_le_mul_of_nonneg_right hbeb hmr)
          exact add_le_add hhead ihsum
        · rw [hL]
          show _ + 1 ≤ k + 1
          omega

/-! ### With all extras disabled the two generators coincide while every
pre-final exact balance stays above one cent -/

theorem extrasGo_zero_extras_eq (mr pay : ℚ) (d : ℕ) :
    ∀ c fe pn (b cum : ℚ), c + 1 ≤ fe →
      rawBal mr pay c b = 0 →
      (∀ j, j < c → 1/100 < rawBal mr pay j b) →
      extrasGo mr pay 0 0 false d fe pn b cum = genGo mr pay d c pn b cum := by
  intro c
  induction c with
  | zero =>
    intro fe pn b cum hfe hraw _
    have hb0 : b = 0 := hraw
    cases fe with
    | zero => rfl
    | succ m =>
      simp only [extrasGo]
      rw [if_neg (by rw [hb0]; norm_num)]
      rfl
  | succ k ih =>
    intro fe pn b cum hfe hraw hj
    have hb : 1/100 < b := hj 0 (by omega)
    obtain ⟨m, rfl⟩ : ∃ m, fe = m + 1 := ⟨fe - 1, by omega⟩
    have hex : extraOf 0 = 0 := by simp [extraOf]
    have hlu : ∀ q, lumpOf false 0 q = 0 := by
      intro q
      simp [lumpOf, annualApplies]
    have hraw1 : rawBal mr pay k (b - (pay - b * mr)) = 0 := hraw
    have hr1cases : (k = 0 ∧ b - (pay - b * mr) = 0) ∨
        (1 ≤ k ∧ 1/100 < b - (pay - b * mr)) := by
      by_cases hk : k = 0
      · left
        refine ⟨hk, ?_⟩
        subst hk
        exact hraw1
      · right
        exact ⟨by omega, hj 1 (by omega)⟩
    have hr1nn : 0 ≤ b - (pay - b * mr) := by
      rcases hr1cases with ⟨_, h⟩ | ⟨_, h⟩
      · rw [h]
      · linarith
    have hpp : extrasPrincipal mr pay 0 0 false pn b = pay - b * mr := by
      simp only [extrasPrincipal, hex, hlu, add_zero]
      rw [if_neg (by intro hcon; linarith)]
    have htp : extrasTotal mr pay 0 0 false pn b = pay := by
      simp only [extrasTotal, hex, hlu, add_zero]
      rw [if_neg (by intro hcon; linarith)]
    have hclamp : clampStep mr pay b = b - (pay - b * mr) := by
      simp only [clampStep]
      rcases hr1cases with ⟨_, h0⟩ | ⟨_, hgt⟩
      · rw [if_pos (by rw [h0]; norm_num)]
        exact h0.symm
      · rw [if_neg (by linarith)]
    have hL : extrasGo mr pay 0 0 false d (m + 1) pn b cum =
        { paymentNumber := pn
          paymentDate := d + pn
          principalPayment := round2 (extrasPrincipal mr pay 0 0 false pn b)
          interestPayment := round2 (b * mr)
          totalPayment := round2 (extrasTotal mr pay 0 0 false pn b)
          remainingBalance := round2 (b - extrasPrincipal mr pay 0 0 false pn b)
          cumulativeInterest := round2 (cum + b * mr) } ::
        extrasGo mr pay 0 0 false d m (pn + 1)
          (b - extrasPrincipal mr pay 0 0 false pn b) (cum + b * mr) := by
      simp only [extrasGo]
      rw [if_pos hb]
    rw [hL, hpp, htp]
    have hbal : b - (pay - b * mr) = clampStep mr pay b := hclamp.symm
    show _ = ({ paymentNumber := pn
                paymentDate := d + pn
                principalPayment := round2 (pay - b * mr)
                interestPayment := round2 (b * mr)
                totalPayment := round2 pay
                remainingBalance := round2 (clampStep mr pay b)
                cumulativeInterest := round2 (cum + b * mr) } : PaymentScheduleItem) ::
      genGo mr pay d k (pn + 1) (clampStep mr pay b) (cum + b * mr)
    rw [hbal]
    congr 1
    apply ih m (pn + 1) (clampStep mr pay b) (cum + b * mr) (by omega)
    · rw [hclamp]
      exact hraw1
    · intro j hjk
      rw [hclamp]
      exact hj (j + 1) (by omega)

/-! ## The claims -/

/-- Claim C1: for every valid loan (positive principal, annual rate `> 0`,
term of at least one year) `generatePaymentSchedule` emits a schedule whose
length is exactly (hence at most) `termYears * 12`, and whose final entry has
`remainingBalance = 0`. -/
theorem c1_schedule_payoff (loanAmount annualInterestRate : ℚ)
    (loanTermYears startDate : ℕ) (hL : 0 < loanAmount)
    (hr : 0 < annualInterestRate) (ht : 1 ≤ loanTermYears) :
    (generatePaymentSchedule loanAmount annualInterestRate loanTermYears
      startDate).length = loanTermYears * 12 ∧
    ∃ e, (generatePaymentSchedule loanAmount annualInterestRate loanTermYears
      startDate).getLast? = some e ∧ e.remainingBalance = 0 := by
  constructor
  · exact genGo_length _ _ _ _ _ _ _
  · obtain ⟨e, he, hrb, -⟩ := genGo_getLast (annualInterestRate / 100 / 12)
      (calculateMonthlyPayment loanAmount annualInterestRate loanTermYears)
      startDate (loanTermYears * 12) (by omega) 1 loanAmount 0
    refine ⟨e, he, ?_⟩
    rw [hrb]
    have hpay : 0 < calculateMonthlyPayment loanAmount annualInterestRate loanTermYears :=
      calculateMonthlyPayment_pos hL (le_of_lt hr) ht
    have hzero : cbal (annualInterestRate / 100 / 12)
        (calculateMonthlyPayment loanAmount annualInterestRate loanTermYears)
        (loanTermYears * 12) loanAmount = 0 :=
      cbal_eq_zero_of_rawBal hpay _ _ (rawBal_payoff (le_of_lt hr) ht)
    rw [hzero, round2_zero]

theorem c1_schedule_payoff_witness :
    (0 : ℚ) < 400000 ∧ (0 : ℚ) < 13/2 ∧ 1 ≤ 30 ∧
    ((generatePaymentSchedule 400000 (13/2) 30 0).length = 30 * 12 ∧
      ∃ e, (generatePaymentSchedule 400000 (13/2) 30 0).getLast? = some e ∧
        e.remainingBalance = 0) :=
  ⟨by norm_num, by norm_num, by norm_num,
    c1_schedule_payoff 400000 (13/2) 30 0 (by norm_num) (by norm_num) (by norm_num)⟩

/-- Claim C2 (amended): for `generatePaymentSchedule` the emitted
`remainingBalance` sequence is non-increasing and non-negative and the loop
balance is snapped to exactly `0` whenever it would fall below one cent
(after every iteration it is either `0` or at least one cent);
`generateScheduleWithExtras` also emits a non-increasing, non-negative
balance sequence, but it has no sub-cent snap — see the counterexample. -/
theorem c2_balance_invariants (loanAmount annualInterestRate em an : ℚ)
    (en : Bool) (loanTermYears startDate : ℕ) (hL : 0 < loanAmount)
    (hr : 0 ≤ annualInterestRate) (ht : 1 ≤ loanTermYears) :
    (∀ e ∈ generatePaymentSchedule loanAmount annualInterestRate loanTermYears
      startDate, 0 ≤ e.remainingBalance) ∧
    List.Chain' (fun x y => y.remainingBalance ≤ x.remainingBalance)
      (generatePaymentSchedule loanAmount annualInterestRate loanTermYears startDate) ∧
    (∀ k, cbal (annualInterestRate / 100 / 12)
        (calculateMonthlyPayment loanAmount annualInterestRate loanTermYears)
        (k + 1) loanAmount = 0 ∨
      1/100 ≤ cbal (annualInterestRate / 100 / 12)
        (calculateMonthlyPayment loanAmount annualInterestRate loanTermYears)
        (k + 1) loanAmount) ∧
    (∀ e ∈ generateScheduleWithExtras loanAmount annualInterestRate loanTermYears
      em an en startDate, 0 ≤ e.remainingBalance) ∧
    List.Chain' (fun x y => y.remainingBalance ≤ x.remainingBalance)
      (generateScheduleWithExtras loanAmount annualInterestRate loanTermYears
        em an en startDate) := by
  have hmr : 0 ≤ annualInterestRate / 100 / 12 := by positivity
  have hbp : loanAmount * (annualInterestRate / 100 / 12) ≤
      calculateMonthlyPayment loanAmount annualInterestRate loanTermYears :=
    calculateMonthlyPayment_ge hL hr ht
  obtain ⟨hmem, hchain⟩ := genGo_balance_facts (annualInterestRate / 100 / 12)
    (calculateMonthlyPayment loanAmount annualInterestRate loanTermYears)
    startDate hmr (loanTermYears * 12) 1 loanAmount 0 (le_of_lt hL) hbp
  obtain ⟨hmem2, hchain2⟩ := extrasGo_balance_facts (annualInterestRate / 100 / 12)
    (calculateMonthlyPayment loanAmount annualInterestRate loanTermYears)
    em an en startDate hmr (loanTermYears * 12 * 2) 1 loanAmount 0 (le_of_lt hL) hbp
  refine ⟨?_, hchain, ?_, ?_, hchain2⟩
  · intro e he
    exact (hmem e he).1
  · intro k
    rw [cbal_succ_clamp]
    exact clampStep_dichotomy _ _ _
  · intro e he
    exact extrasGo_balance_nonneg _ _ _ _ _ _ _ _ _ _ e he

theorem c2_balance_invariants_witness :
    (0 : ℚ) < 12 ∧ (0 : ℚ) ≤ 0 ∧ 1 ≤ 1 ∧
    ((∀ e ∈ generatePaymentSchedule 12 0 1 0, 0 ≤ e.remainingBalance) ∧
    List.Chain' (fun x y => y.remainingBalance ≤ x.remainingBalance)
      (generatePaymentSchedule 12 0 1 0) ∧
    (∀ k, cbal (0 / 100 / 12) (calculateMonthlyPayment 12 0 1) (k + 1) 12 = 0 ∨
      1/100 ≤ cbal (0 / 100 / 12) (calculateMonthlyPayment 12 0 1) (k + 1) 12) ∧
    (∀ e ∈ generateScheduleWithExtras 12 0 1 (113/1250) 0 false 0,
      0 ≤ e.remainingBalance) ∧
    List.Chain' (fun x y => y.remainingBalance ≤ x.remainingBalance)
      (generateScheduleWithExtras 12 0 1 (113/1250) 0 false 0)) :=
  ⟨by norm_num, le_refl 0, le_refl 1,
    c2_balance_invariants 12 0 (113/1250) 0 false 1 0 (by norm_num) (le_refl 0)
      (le_refl 1)⟩

set_option maxHeartbeats 2000000 in
/-- Claim C2 counterexample: `generateScheduleWithExtras` does not clamp a
sub-cent balance to zero.  With loan `12`, rate `0`, one-year term and extra
monthly payment `0.0904`, the loop's balance after the 11th payment is
`0.0056` — strictly positive and below one cent — the loop then exits, and
the final emitted entry carries `remainingBalance = 0.01`, not `0`. -/
theorem c2_counterexample :
    extrasBal (0 / 100 / 12) (calculateMonthlyPayment 12 0 1) (113/1250) 0 false
      11 1 12 = 7/1250 ∧
    (7/1250 : ℚ) < 1/100 ∧ (0 : ℚ) < 7/1250 ∧
    (generateScheduleWithExtras 12 0 1 (113/1250) 0 false 0).length = 11 ∧
    ((generateScheduleWithExtras 12 0 1 (113/1250) 0 false 0).getLast?).map
      (·.remainingBalance) = some (1/100) ∧
    (1/100 : ℚ) ≠ 0 := by
  refine ⟨?_, by norm_num, by norm_num, ?_, ?_, by norm_num⟩
  · norm_num [extrasBal, extrasPrincipal, extraOf, lumpOf, annualApplies,
      calculateMonthlyPayment]
  · norm_num [generateScheduleWithExtras, extrasGo, extrasPrincipal, extrasTotal,
      extraOf, lumpOf, annualApplies, round2, calculateMonthlyPayment]
  · norm_num [generateScheduleWithExtras, extrasGo, extrasPrincipal, extrasTotal,
      extraOf, lumpOf, annualApplies, round2, calculateMonthlyPayment,
      List.getLast?]

/-- Claim C3: in `calculateRefinanceComparison`, `breakEvenMonths` equals
`⌈closingCosts / monthlySavings⌉` when `monthlySavings > 0` and the fixed
sentinel `999` otherwise; with non-negative closing costs it is never
negative (and by construction never a division by zero). -/
theorem c3_break_even_sentinel (inputs : RefinanceInputs) (startDate : ℕ)
    (hcc : 0 ≤ inputs.closingCosts) :
    (0 < (calculateRefinanceComparison inputs startDate).monthlySavings →
      (calculateRefinanceComparison inputs startDate).breakEvenMonths =
        ((⌈inputs.closingCosts /
          (calculateRefinanceComparison inputs startDate).monthlySavings⌉ : ℤ) : ℚ)) ∧
    ((calculateRefinanceComparison inputs startDate).monthlySavings ≤ 0 →
      (calculateRefinanceComparison inputs startDate).breakEvenMonths = 999) ∧
    0 ≤ (calculateRefinanceComparison inputs startDate).breakEvenMonths := by
  have hbe : (calculateRefinanceComparison inputs startDate).breakEvenMonths =
      if 0 < (calculateRefinanceComparison inputs startDate).monthlySavings then
        ((⌈inputs.closingCosts /
          (calculateRefinanceComparison inputs startDate).monthlySavings⌉ : ℤ) : ℚ)
      else 999 := rfl
  refine ⟨?_, ?_, ?_⟩
  · intro h
    rw [hbe, if_pos h]
  · intro h
    rw [hbe, if_neg (not_lt.mpr h)]
  · rw [hbe]
    split
    · rename_i h
      have hdiv : 0 ≤ inputs.closingCosts /
          (calculateRefinanceComparison inputs startDate).monthlySavings :=
        div_nonneg hcc (le_of_lt h)
      have := Int.ceil_nonneg hdiv
      exact_mod_cast this
    · norm_num

theorem c3_break_even_sentinel_witness :
    (0 : ℚ) ≤
      ({ currentLoanAmount := 1200, currentInterestRate := 0
         currentRemainingYears := 1, currentMonthsRemaining := 12
         newLoanAmount := 1200, newInterestRate := 0, newLoanTermYears := 1
         closingCosts := 0, cashOut := 0, extraMonthlyPayment := 0
         annualExtraPayment := 0, enableAnnualPayment := false } :
        RefinanceInputs).closingCosts ∧
    ((0 < (calculateRefinanceComparison
        { currentLoanAmount := 1200, currentInterestRate := 0
          currentRemainingYears := 1, currentMonthsRemaining := 12
          newLoanAmount := 1200, newInterestRate := 0, newLoanTermYears := 1
          closingCosts := 0, cashOut := 0, extraMonthlyPayment := 0
          annualExtraPayment := 0, enableAnnualPayment := false } 0).monthlySavings →
      (calculateRefinanceComparison
        { currentLoanAmount := 1200, currentInterestRate := 0
          currentRemainingYears := 1, currentMonthsRemaining := 12
          newLoanAmount := 1200, newInterestRate := 0, newLoanTermYears := 1
          closingCosts := 0, cashOut := 0, extraMonthlyPayment := 0
          annualExtraPayment := 0, enableAnnualPayment := false } 0).breakEvenMonths =
        ((⌈({ currentLoanAmount := 1200, currentInterestRate := 0
              currentRemainingYears := 1, currentMonthsRemaining := 12
              newLoanAmount := 1200, newInterestRate := 0, newLoanTermYears := 1
              closingCosts := 0, cashOut := 0, extraMonthlyPayment := 0
              annualExtraPayment := 0, enableAnnualPayment := false } :
            RefinanceInputs).closingCosts /
          (calculateRefinanceComparison
            { currentLoanAmount := 1200, currentInterestRate := 0
              currentRemainingYears := 1, currentMonthsRemaining := 12
              newLoanAmount := 1200, newInterestRate := 0, newLoanTermYears := 1
              closingCosts := 0, cashOut := 0, extraMonthlyPayment := 0
              annualExtraPayment := 0, enableAnnualPayment := false } 0).monthlySavings⌉ : ℤ) : ℚ)) ∧
    ((calculateRefinanceComparison
        { currentLoanAmount := 1200, currentInterestRate := 0
          currentRemainingYears := 1, currentMonthsRemaining := 12
          newLoanAmount := 1200, newInterestRate := 0, newLoanTermYears := 1
          closingCosts := 0, cashOut := 0, extraMonthlyPayment := 0
          annualExtraPayment := 0, enableAnnualPayment := false } 0).monthlySavings ≤ 0 →
      (calculateRefinanceComparison
        { currentLoanAmount := 1200, currentInterestRate := 0
          currentRemainingYears := 1, currentMonthsRemaining := 12
          newLoanAmount := 1200, newInterestRate := 0, newLoanTermYears := 1
          closingCosts := 0, cashOut := 0, extraMonthlyPayment := 0
          annualExtraPayment := 0, enableAnnualPayment := false } 0).breakEvenMonths = 999) ∧
    0 ≤ (calculateRefinanceComparison
        { currentLoanAmount := 1200, currentInterestRate := 0
          currentRemainingYears := 1, currentMonthsRemaining := 12
          newLoanAmount := 1200, newInterestRate := 0, newLoanTermYears := 1
          closingCosts := 0, cashOut := 0, extraMonthlyPayment := 0
          annualExtraPayment := 0, enableAnnualPayment := false } 0).breakEvenMonths) :=
  ⟨le_refl 0,
    c3_break_even_sentinel
      { currentLoanAmount := 1200, currentInterestRate := 0
        currentRemainingYears := 1, currentMonthsRemaining := 12
        newLoanAmount := 1200, newInterestRate := 0, newLoanTermYears := 1
        closingCosts := 0, cashOut := 0, extraMonthlyPayment := 0
        annualExtraPayment := 0, enableAnnualPayment := false } 0 (le_refl 0)⟩

/-- Claim C4: for a fixed valid loan, running the extra-payment generator
with a positive monthly extra (any annual-lump settings) never yields a
longer schedule or more total interest than the zero-extra baseline. -/
theorem c4_extra_payment_dominance (inputs : MortgageInputs) (em an : ℚ)
    (en : Bool) (startDate : ℕ) (hL : 0 < inputs.loanAmount)
    (hr : 0 ≤ inputs.interestRate) (ht : 1 ≤ inputs.loanTermYears)
    (hem : 0 < em) :
    (calculateMortgageWithExtras inputs em an en startDate).paymentSchedule.length ≤
      (calculateMortgageDetails inputs startDate).paymentSchedule.length ∧
    (calculateMortgageWithExtras inputs em an en startDate).totalInterest ≤
      (calculateMortgageDetails inputs startDate).totalInterest := by
  have hmr : 0 ≤ inputs.interestRate / 100 / 12 := by positivity
  have hpay : 0 < calculateMonthlyPayment inputs.loanAmount inputs.interestRate
      inputs.loanTermYears := calculateMonthlyPayment_pos hL hr ht
  have hzero : cbal (inputs.interestRate / 100 / 12)
      (calculateMonthlyPayment inputs.loanAmount inputs.interestRate
        inputs.loanTermYears) (inputs.loanTermYears * 12) inputs.loanAmount = 0 :=
    cbal_eq_zero_of_rawBal hpay _ _ (rawBal_payoff hr ht)
  obtain ⟨hsum, hlen⟩ := extras_dominance_aux (inputs.interestRate / 100 / 12)
    (calculateMonthlyPayment inputs.loanAmount inputs.interestRate
      inputs.loanTermYears) em an en startDate hmr (inputs.loanTermYears * 12)
    (inputs.loanTermYears * 12 * 2) 1 inputs.loanAmount inputs.loanAmount 0 0
    (le_of_lt hL) (le_of_lt hL) (Or.inl (le_refl _)) hzero
  constructor
  · show (generateScheduleWithExtras inputs.loanAmount inputs.interestRate
      inputs.loanTermYears em an en startDate).length ≤
      (generatePaymentSchedule inputs.loanAmount inputs.interestRate
        inputs.loanTermYears startDate).length
    rw [show (generatePaymentSchedule inputs.loanAmount inputs.interestRate
      inputs.loanTermYears startDate).length = inputs.loanTermYears * 12 from
      genGo_length _ _ _ _ _ _ _]
    exact hlen
  · exact hsum

theorem c4_extra_payment_dominance_witness :
    (0 : ℚ) < 12 ∧ (0 : ℚ) ≤ 0 ∧ 1 ≤ 1 ∧ (0 : ℚ) < 1 ∧
    ((calculateMortgageWithExtras
        { loanAmount := 12, interestRate := 0, loanTermYears := 1 } 1 0 false
        0).paymentSchedule.length ≤
      (calculateMortgageDetails
        { loanAmount := 12, interestRate := 0, loanTermYears := 1 }
        0).paymentSchedule.length ∧
    (calculateMortgageWithExtras
        { loanAmount := 12, interestRate := 0, loanTermYears := 1 } 1 0 false
        0).totalInterest ≤
      (calculateMortgageDetails
        { loanAmount := 12, interestRate := 0, loanTermYears := 1 }
        0).totalInterest) :=
  ⟨by norm_num, le_refl 0, le_refl 1, by norm_num,
    c4_extra_payment_dominance
      { loanAmount := 12, interestRate := 0, loanTermYears := 1 } 1 0 false 0
      (by norm_num) (le_refl 0) (le_refl 1) (by norm_num)⟩

/-- Claim C5 (amended): at rate zero the payment formula returns exactly
`principal / (termYears * 12)`, and every schedule entry (including the
final one) has `interestPaid = 0` and the constant
`principalPaid = round2 (principal / (termYears * 12))` — the emitted
principal is the cent-rounded constant, not the exact quotient. -/
theorem c5_zero_rate_schedule (loanAmount : ℚ) (loanTermYears startDate : ℕ) :
    calculateMonthlyPayment loanAmount 0 loanTermYears =
      loanAmount / ((loanTermYears : ℚ) * 12) ∧
    ∀ e ∈ generatePaymentSchedule loanAmount 0 loanTermYears startDate,
      e.interestPayment = 0 ∧
      e.principalPayment = round2 (loanAmount / ((loanTermYears : ℚ) * 12)) := by
  have hpay : calculateMonthlyPayment loanAmount 0 loanTermYears =
      loanAmount / ((loanTermYears : ℚ) * 12) := by
    simp [calculateMonthlyPayment]
  refine ⟨hpay, ?_⟩
  intro e he
  have h0 : (0 : ℚ) / 100 / 12 = 0 := by norm_num
  rw [generatePaymentSchedule, h0] at he
  obtain ⟨h1, h2⟩ := genGo_zero_rate
    (calculateMonthlyPayment loanAmount 0 loanTermYears) startDate
    (loanTermYears * 12) 1 loanAmount 0 e he
  exact ⟨h1, by rw [h2, hpay]⟩

theorem c5_zero_rate_schedule_witness :
    ({ paymentNumber := 1, paymentDate := 1, principalPayment := 2/25
       interestPayment := 0, totalPayment := 2/25, remainingBalance := 23/25
       cumulativeInterest := 0 } : PaymentScheduleItem) ∈
      generatePaymentSchedule 1 0 1 0 ∧
    (({ paymentNumber := 1, paymentDate := 1, principalPayment := 2/25
        interestPayment := 0, totalPayment := 2/25, remainingBalance := 23/25
        cumulativeInterest := 0 } : PaymentScheduleItem).interestPayment = 0 ∧
      ({ paymentNumber := 1, paymentDate := 1, principalPayment := 2/25
         interestPayment := 0, totalPayment := 2/25, remainingBalance := 23/25
         cumulativeInterest := 0 } : PaymentScheduleItem).principalPayment =
        round2 (1 / ((1 : ℚ) * 12))) :=
  ⟨by norm_num [generatePaymentSchedule, genGo, clampStep, round2,
      calculateMonthlyPayment],
    (c5_zero_rate_schedule 1 1 0).2 _
      (by norm_num [generatePaymentSchedule, genGo, clampStep, round2,
        calculateMonthlyPayment])⟩

/-- Claim C5 counterexample: the emitted `principalPayment` is the rounded
constant, not exactly `principal / (termYears * 12)`: with loan `1`, rate
`0`, one-year term the first entry's `principalPayment` is `0.08`, while
`1 / 12` is not `0.08`. -/
theorem c5_counterexample :
    ((generatePaymentSchedule 1 0 1 0).head?).map (·.principalPayment) =
      some (2/25) ∧
    (2/25 : ℚ) ≠ 1 / ((1 : ℚ) * 12) := by
  constructor
  · norm_num [generatePaymentSchedule, genGo, clampStep, round2,
      calculateMonthlyPayment]
  · norm_num

/-- Claim C6: in `generateScheduleWithExtras` the annual lump sum is applied
exactly under the guard `annualApplies`, which requires a 1-based payment
number strictly greater than 1 and congruent to 1 mod 12 — so the first
qualifying payment is number 13, where the guard does fire whenever the lump
is positive and enabled — and no payment ever drives a remaining balance
negative (the principal is capped at the balance). -/
theorem c6_annual_lump_rules (loanAmount annualInterestRate em an : ℚ)
    (en : Bool) (loanTermYears startDate : ℕ) :
    (∀ e ∈ generateScheduleWithExtras loanAmount annualInterestRate loanTermYears
      em an en startDate, 0 ≤ e.remainingBalance) ∧
    (∀ (en' : Bool) (an' : ℚ) (pn : ℕ), annualApplies en' an' pn →
      13 ≤ pn ∧ pn % 12 = 1) ∧
    (∀ an' : ℚ, 0 < an' → annualApplies true an' 13) := by
  refine ⟨?_, ?_, ?_⟩
  · intro e he
    exact extrasGo_balance_nonneg _ _ _ _ _ _ _ _ _ _ e he
  · intro en' an' pn h
    obtain ⟨-, -, hmod, hgt⟩ := h
    exact ⟨by omega, hmod⟩
  · intro an' h
    exact ⟨rfl, h, by norm_num, by norm_num⟩

theorem c6_annual_lump_rules_witness :
    (0 : ℚ) < 500 ∧ annualApplies true 500 13 :=
  ⟨by norm_num, (c6_annual_lump_rules 12 0 500 500 true 1 0).2.2 500 (by norm_num)⟩

/-- Claim C7: `calculateRefinanceComparison` uses the stated new loan amount
plus the cash-out as the principal of every new-loan computation (both the
plain new mortgage and the extras schedule), and
`totalSavings = totalInterestSavings - closingCosts` with the cash-out not
added back. -/
theorem c7_refinance_cash_out (inputs : RefinanceInputs) (startDate : ℕ) :
    (calculateRefinanceComparison inputs startDate).totalSavings =
      (calculateRefinanceComparison inputs startDate).totalInterestSavings -
        inputs.closingCosts ∧
    (calculateRefinanceComparison inputs startDate).newMortgage =
      calculateMortgageDetails
        { loanAmount := inputs.newLoanAmount + inputs.cashOut
          interestRate := inputs.newInterestRate
          loanTermYears := inputs.newLoanTermYears } startDate ∧
    (calculateRefinanceComparison inputs startDate).newMortgageWithExtras.paymentSchedule =
      generateScheduleWithExtras (inputs.newLoanAmount + inputs.cashOut)
        inputs.newInterestRate inputs.newLoanTermYears inputs.extraMonthlyPayment
        inputs.annualExtraPayment inputs.enableAnnualPayment startDate :=
  ⟨rfl, rfl, rfl⟩

set_option maxHeartbeats 2000000 in
/-- Claim C8 counterexample: the sum of the emitted (cent-rounded)
`interestPayment` values can differ from the final `cumulativeInterest`
(which rounds the exact running total once) by more than one cent: at loan
`1029`, rate `12`, one-year term, the sum of emitted interest is `68.12`
while the final `cumulativeInterest` is `68.10`. -/
theorem c8_counterexample :
    sumInterest (generatePaymentSchedule 1029 12 1 0) = 1703/25 ∧
    (((generatePaymentSchedule 1029 12 1 0).getLast?).map
      (·.cumulativeInterest)).getD 0 = 681/10 ∧
    1/100 < (1703/25 : ℚ) - 681/10 := by
  refine ⟨?_, ?_, by norm_num⟩
  · norm_num [generatePaymentSchedule, genGo, clampStep, round2,
      calculateMonthlyPayment, sumInterest]
  · norm_num [generatePaymentSchedule, genGo, clampStep, round2,
      calculateMonthlyPayment, List.getLast?]

/-- Claim C8 (amended): the emitted interest sum and the final
`cumulativeInterest` agree to within half a cent per entry plus one final
rounding, i.e. `(length + 1) / 200`, but not in general to within one cent. -/
theorem c8_interest_sum_bound (loanAmount annualInterestRate : ℚ)
    (loanTermYears startDate : ℕ) (e : PaymentScheduleItem)
    (h : (generatePaymentSchedule loanAmount annualInterestRate loanTermYears
      startDate).getLast? = some e) :
    |sumInterest (generatePaymentSchedule loanAmount annualInterestRate
      loanTermYears startDate) - e.cumulativeInterest| ≤
    (((generatePaymentSchedule loanAmount annualInterestRate loanTermYears
      startDate).length : ℚ) + 1) / 200 := by
  by_cases hc : 1 ≤ loanTermYears * 12
  · obtain ⟨e', he', hrb', hci'⟩ := genGo_getLast (annualInterestRate / 100 / 12)
      (calculateMonthlyPayment loanAmount annualInterestRate loanTermYears)
      startDate (loanTermYears * 12) hc 1 loanAmount 0
    have hee : e = e' := by
      rw [generatePaymentSchedule] at h
      rw [h] at he'
      exact Option.some_injective _ he'
    subst hee
    rw [hci']
    have h1 := sumInterest_genGo_close (annualInterestRate / 100 / 12)
      (calculateMonthlyPayment loanAmount annualInterestRate loanTermYears)
      startDate (loanTermYears * 12) 1 loanAmount 0
    have h2 := abs_round2_sub_le ((0 : ℚ) + cISum (annualInterestRate / 100 / 12)
      (calculateMonthlyPayment loanAmount annualInterestRate loanTermYears)
      (loanTermYears * 12) loanAmount)
    have hlen : (generatePaymentSchedule loanAmount annualInterestRate
        loanTermYears startDate).length = loanTermYears * 12 :=
      genGo_length _ _ _ _ _ _ _
    rw [hlen]
    rw [abs_le] at h1 h2 ⊢
    obtain ⟨h1a, h1b⟩ := h1
    obtain ⟨h2a, h2b⟩ := h2
    have hcast : (0 : ℚ) ≤ ((loanTermYears * 12 : ℕ) : ℚ) := by positivity
    constructor <;> [skip; skip] <;>
      · simp only [generatePaymentSchedule] at *
        push_cast at *
        linarith
  · have ht0 : loanTermYears * 12 = 0 := by omega
    rw [generatePaymentSchedule, ht0] at h
    simp [genGo] at h

theorem c8_interest_sum_bound_witness :
    (generatePaymentSchedule 12 0 1 0).getLast? =
      some ({ paymentNumber := 12, paymentDate := 12, principalPayment := 1
              interestPayment := 0, totalPayment := 1, remainingBalance := 0
              cumulativeInterest := 0 } : PaymentScheduleItem) ∧
    |sumInterest (generatePaymentSchedule 12 0 1 0) -
      ({ paymentNumber := 12, paymentDate := 12, principalPayment := 1
         interestPayment := 0, totalPayment := 1, remainingBalance := 0
         cumulativeInterest := 0 } : PaymentScheduleItem).cumulativeInterest| ≤
    (((generatePaymentSchedule 12 0 1 0).length : ℚ) + 1) / 200 :=
  ⟨by norm_num [generatePaymentSchedule, genGo, clampStep, round2,
      calculateMonthlyPayment, List.getLast?],
    c8_interest_sum_bound 12 0 1 0 _
      (by norm_num [generatePaymentSchedule, genGo, clampStep, round2,
        calculateMonthlyPayment, List.getLast?])⟩

/-- Claim C9 (amended): both schedule generators are deterministic functions
of the loan parameters and the invocation-time clock anchor: two runs agree
on every field except possibly `paymentDate`, which is anchored to the clock
(`new Date()` in the source); runs with the same anchor are identical. -/
theorem c9_deterministic_modulo_clock (loanAmount annualInterestRate em an : ℚ)
    (en : Bool) (loanTermYears d1 d2 : ℕ) :
    (generatePaymentSchedule loanAmount annualInterestRate loanTermYears d1).map
        stripDate =
      (generatePaymentSchedule loanAmount annualInterestRate loanTermYears d2).map
        stripDate ∧
    (generateScheduleWithExtras loanAmount annualInterestRate loanTermYears
        em an en d1).map stripDate =
      (generateScheduleWithExtras loanAmount annualInterestRate loanTermYears
        em an en d2).map stripDate :=
  ⟨genGo_map_stripDate _ _ d1 d2 _ _ _ _,
    extrasGo_map_stripDate _ _ _ _ _ d1 d2 _ _ _ _⟩

/-- Claim C9 counterexample: the full output is not a function of the loan
parameters alone — the `paymentDate` fields depend on the hidden clock
anchor, so two invocations with identical loan inputs but different clock
anchors produce different schedules. -/
theorem c9_counterexample :
    generatePaymentSchedule 12 0 1 0 ≠ generatePaymentSchedule 12 0 1 1 := by
  norm_num [generatePaymentSchedule, genGo, clampStep, round2,
    calculateMonthlyPayment]

/-- Claim C10 (amended): with the monthly extra, the annual lump and the
annual flag all zero/disabled, `generateScheduleWithExtras` produces exactly
the `generatePaymentSchedule` schedule — provided every exact pre-final
balance of the amortization recurrence stays above one cent (otherwise the
extras loop exits early while the plain generator keeps emitting rows; see
the counterexample). -/
theorem c10_zero_extras_refines (loanAmount annualInterestRate : ℚ)
    (loanTermYears startDate : ℕ) (hr : 0 ≤ annualInterestRate)
    (ht : 1 ≤ loanTermYears)
    (H : ∀ j, j < loanTermYears * 12 →
      1/100 < rawBal (annualInterestRate / 100 / 12)
        (calculateMonthlyPayment loanAmount annualInterestRate loanTermYears)
        j loanAmount) :
    generateScheduleWithExtras loanAmount annualInterestRate loanTermYears
      0 0 false startDate =
    generatePaymentSchedule loanAmount annualInterestRate loanTermYears
      startDate := by
  rw [generateScheduleWithExtras, generatePaymentSchedule]
  exact extrasGo_zero_extras_eq (annualInterestRate / 100 / 12)
    (calculateMonthlyPayment loanAmount annualInterestRate loanTermYears)
    startDate (loanTermYears * 12) (loanTermYears * 12 * 2) 1 loanAmount 0
    (by omega) (rawBal_payoff hr ht) H

theorem c10_zero_extras_refines_witness :
    (0 : ℚ) ≤ 0 ∧ 1 ≤ 1 ∧
    (∀ j, j < 1 * 12 →
      1/100 < rawBal ((0 : ℚ) / 100 / 12) (calculateMonthlyPayment 1200 0 1)
        j 1200) ∧
    generateScheduleWithExtras 1200 0 1 0 0 false 0 =
      generatePaymentSchedule 1200 0 1 0 :=
  ⟨le_refl 0, le_refl 1,
    by
      intro j hj
      interval_cases j <;>
        norm_num [rawBal, calculateMonthlyPayment],
    c10_zero_extras_refines 1200 0 1 0 (le_refl 0) (le_refl 1)
      (by
        intro j hj
        interval_cases j <;>
          norm_num [rawBal, calculateMonthlyPayment])⟩

/-- Claim C10 counterexample: for a small loan (`0.12`, rate `0`, one-year
term) the plain generator emits its fixed 12 rows while the zero-extras run
of `generateScheduleWithExtras` exits after 11 (its loop stops once the
balance is at most one cent), so the two schedules are not equal
entry-for-entry. -/
theorem c10_counterexample :
    (generatePaymentSchedule (12/100) 0 1 0).length = 12 ∧
    (generateScheduleWithExtras (12/100) 0 1 0 0 false 0).length = 11 ∧
    generateScheduleWithExtras (12/100) 0 1 0 0 false 0 ≠
      generatePaymentSchedule (12/100) 0 1 0 := by
  have h1 : (generatePaymentSchedule (12/100) 0 1 0).length = 12 := by
    have := genGo_length ((0 : ℚ) / 100 / 12)
      (calculateMonthlyPayment (12/100) 0 1) 0 (1 * 12) 1 (12/100) 0
    simpa [generatePaymentSchedule] using this
  have h2 : (generateScheduleWithExtras (12/100) 0 1 0 0 false 0).length = 11 := by
    norm_num [generateScheduleWithExtras, extrasGo, extrasPrincipal, extrasTotal,
      extraOf, lumpOf, annualApplies, round2, calculateMonthlyPayment]
  refine ⟨h1, h2, ?_⟩
  intro hcon
  have := congrArg List.length hcon
  rw [h1, h2] at this
  exact absurd this (by norm_num)

end HomeCalc
